import Mathlib

/-!
Shallow embedding of the CleanrCrew booking wizard
(`src/components/BookingWizard.tsx`).

The component's numbers are embedded as exact rationals (ℚ), its state
records as Lean structures, and each state-updating handler as a pure
function from the old state to the new state.  The asynchronous
availability fetch is embedded as an event-step function on an explicit
state that records the in-flight requests, so that interleavings of
parameter changes and fetch resolutions can be replayed deterministically.
-/

namespace CleanrCrew

/-- Payment status field of the booking record. -/
inductive PaymentStatus
  | pending
  | processing
  | paid
  | failed
deriving DecidableEq

/-- Client contact details, all free-form text. -/
structure ClientDetails where
  firstName : String
  lastName : String
  email : String
  phone : String
  address : String
  notes : String
deriving DecidableEq

/-- A time slot as returned by the availability backend
(`getRealAvailability`); never mutated locally. -/
structure TimeSlot where
  start : Nat
  stop : Nat
  available : Bool
deriving DecidableEq

/-- A service catalog entry (the catalog itself is external input). -/
structure ServiceType where
  id : String
  title : String
  hourlyRate : ℚ
  recommendedHours : ℚ
deriving DecidableEq

/-- The single owned booking record of the wizard session.  `service`
holds the selected service id (the catalog lookup happens on read),
`date` is an opaque day value. -/
structure BookingState where
  step : ℤ
  service : Option String
  hours : ℚ
  date : Option Nat
  timeSlot : Option TimeSlot
  clientDetails : ClientDetails
  paymentStatus : PaymentStatus
deriving DecidableEq

/-- `INITIAL_STATE` of the wizard (source lines 9-24). -/
def INITIAL_STATE : BookingState :=
  { step := 1
    service := none
    hours := 3
    date := none
    timeSlot := none
    clientDetails :=
      { firstName := ""
        lastName := ""
        email := ""
        phone := ""
        address := ""
        notes := "" }
    paymentStatus := .pending }

/-- `HST_RATE = 0.13` (source line 26). -/
def HST_RATE : ℚ := 0.13

/-- `currentService = SERVICE_OPTIONS.find(s => s.id === booking.service)`
(source line 82), over an arbitrary external catalog. -/
def currentService (catalog : List ServiceType) (b : BookingState) :
    Option ServiceType :=
  catalog.find? (fun s => b.service == some s.id)

/-- `subtotal = currentService ? currentService.hourlyRate * booking.hours : 0`
(source line 86). -/
def subtotal (svc : Option ServiceType) (hours : ℚ) : ℚ :=
  match svc with
  | some s => s.hourlyRate * hours
  | none => 0

/-- `hstAmount = subtotal * HST_RATE` (source line 87). -/
def hstAmount (svc : Option ServiceType) (hours : ℚ) : ℚ :=
  subtotal svc hours * HST_RATE

/-- `totalCost = subtotal + hstAmount` (source line 88). -/
def totalCost (svc : Option ServiceType) (hours : ℚ) : ℚ :=
  subtotal svc hours + hstAmount svc hours

/-- `depositAmount = totalCost * 0.30` (source line 89). -/
def depositAmount (svc : Option ServiceType) (hours : ℚ) : ℚ :=
  totalCost svc hours * 0.30

/-- `remainingAmount = totalCost * 0.70` (source line 90). -/
def remainingAmount (svc : Option ServiceType) (hours : ℚ) : ℚ :=
  totalCost svc hours * 0.70

/-- The rate the spec's pricing formulas refer to: the selected
service's hourly rate, 0 when no service is selected. -/
def hourlyRate (svc : Option ServiceType) : ℚ :=
  match svc with
  | some s => s.hourlyRate
  | none => 0

/-- Home-estimator counters (source lines 51-56 hold the defaults). -/
structure HomeEstimator where
  bedrooms : Nat
  bathrooms : Nat
  kitchen : Nat
  living : Nat
deriving DecidableEq

/-- Office-estimator counters (source lines 58-63 hold the defaults). -/
structure OfficeEstimator where
  rooms : Nat
  cafeteria : Nat
  desks : Nat
  washrooms : Nat
deriving DecidableEq

/-- Default home counters at mount: bedrooms 2, bathrooms 1, kitchen 1,
living 1. -/
def initialHomeEstimator : HomeEstimator := ⟨2, 1, 1, 1⟩

/-- Default office counters at mount: rooms 6, cafeteria 0, desks 20,
washrooms 2. -/
def initialOfficeEstimator : OfficeEstimator := ⟨6, 0, 20, 2⟩

/-- The field a home-counter mutation targets. -/
inductive HomeField
  | bedrooms
  | bathrooms
  | kitchen
  | living
deriving DecidableEq

/-- The field an office-counter mutation targets. -/
inductive OfficeField
  | rooms
  | cafeteria
  | desks
  | washrooms
deriving DecidableEq

/-- Read one home counter. -/
def HomeEstimator.get (c : HomeEstimator) : HomeField → Nat
  | .bedrooms => c.bedrooms
  | .bathrooms => c.bathrooms
  | .kitchen => c.kitchen
  | .living => c.living

/-- Write one home counter. -/
def HomeEstimator.set (c : HomeEstimator) (f : HomeField) (v : Nat) :
    HomeEstimator :=
  match f with
  | .bedrooms => { c with bedrooms := v }
  | .bathrooms => { c with bathrooms := v }
  | .kitchen => { c with kitchen := v }
  | .living => { c with living := v }

/-- Read one office counter. -/
def OfficeEstimator.get (c : OfficeEstimator) : OfficeField → Nat
  | .rooms => c.rooms
  | .cafeteria => c.cafeteria
  | .desks => c.desks
  | .washrooms => c.washrooms

/-- Write one office counter. -/
def OfficeEstimator.set (c : OfficeEstimator) (f : OfficeField) (v : Nat) :
    OfficeEstimator :=
  match f with
  | .rooms => { c with rooms := v }
  | .cafeteria => { c with cafeteria := v }
  | .desks => { c with desks := v }
  | .washrooms => { c with washrooms := v }

/-- `handleHomeChange` (source lines 116-133): clamp the mutated counter
at 0, recompute raw hours from the new counters, round up to a half hour,
floor at 2, and write the result into `booking.hours`.  Returns the new
counter record and the new booking state. -/
def handleHomeChange (prev : HomeEstimator) (b : BookingState)
    (field : HomeField) (delta : ℤ) : HomeEstimator × BookingState :=
  let nextValue : ℤ := max 0 ((prev.get field : ℤ) + delta)
  let newState := prev.set field nextValue.toNat
  let hours : ℚ :=
    (newState.kitchen : ℚ) * 0.75 + (newState.bathrooms : ℚ) * 0.5
      + (newState.bedrooms : ℚ) * 0.3 + (newState.living : ℚ) * 0.25
  let rounded : ℚ := (⌈hours * 2⌉ : ℚ) / 2
  let finalHours : ℚ := max 2 rounded
  (newState, { b with hours := finalHours })

/-- `handleOfficeChange` (source lines 136-154): like the home variant
but with the office weights, a fixed 0.75 base allowance, and a floor of
3 hours. -/
def handleOfficeChange (prev : OfficeEstimator) (b : BookingState)
    (field : OfficeField) (delta : ℤ) : OfficeEstimator × BookingState :=
  let nextValue : ℤ := max 0 ((prev.get field : ℤ) + delta)
  let newState := prev.set field nextValue.toNat
  let hours : ℚ :=
    (newState.rooms : ℚ) * 0.3 + (newState.cafeteria : ℚ) * 0.67
      + (newState.desks : ℚ) * 0.133 + (newState.washrooms : ℚ) * 0.42
      + 0.75
  let rounded : ℚ := (⌈hours * 2⌉ : ℚ) / 2
  let finalHours : ℚ := max 3 rounded
  (newState, { b with hours := finalHours })

/-- The free-form duration slider (source line 199):
`setBooking({ ...booking, hours: v })`.  The surrounding input element
restricts `v` to `[2, 10]` in steps of `0.5` (source lines 195-197). -/
def sliderSetHours (b : BookingState) (v : ℚ) : BookingState :=
  { b with hours := v }

/-- `handleNext` (source line 112): unconditional step increment. -/
def handleNext (b : BookingState) : BookingState :=
  { b with step := b.step + 1 }

/-- `handleBack` (source line 113): unconditional step decrement. -/
def handleBack (b : BookingState) : BookingState :=
  { b with step := b.step - 1 }

/-- Spec formula `roundUpToHalf(x) = ceil(x * 2) / 2` (spec section 4.1). -/
def roundUpToHalf (q : ℚ) : ℚ := (⌈q * 2⌉ : ℚ) / 2

/-- Spec formula for the raw home estimate:
`kitchen*0.75 + bathrooms*0.5 + bedrooms*0.3 + living*0.25`. -/
def homeRaw (c : HomeEstimator) : ℚ :=
  (c.kitchen : ℚ) * 0.75 + (c.bathrooms : ℚ) * 0.5
    + (c.bedrooms : ℚ) * 0.3 + (c.living : ℚ) * 0.25

/-- Spec formula `homeHours(counts) = max(2, roundUpToHalf(raw))`. -/
def homeHours (c : HomeEstimator) : ℚ := max 2 (roundUpToHalf (homeRaw c))

/-- Spec formula for the raw office estimate:
`rooms*0.3 + cafeteria*0.67 + desks*0.133 + washrooms*0.42 + 0.75`. -/
def officeRaw (c : OfficeEstimator) : ℚ :=
  (c.rooms : ℚ) * 0.3 + (c.cafeteria : ℚ) * 0.67
    + (c.desks : ℚ) * 0.133 + (c.washrooms : ℚ) * 0.42 + 0.75

/-- Spec formula `officeHours(counts) = max(3, roundUpToHalf(raw))`. -/
def officeHours (c : OfficeEstimator) : ℚ := max 3 (roundUpToHalf (officeRaw c))

/-- A rational is a multiple of one half. -/
def halfStep (q : ℚ) : Prop := ∃ k : ℤ, q = (k : ℚ) / 2

/-- State of the availability-fetch effect (source lines 41-42 and
93-110): the effect's dependencies `(date, hours)`, the two pieces of
component state it writes (`availableSlots`, `isLoadingSlots`), the
captured `(date, duration)` arguments of every fetch still in flight
(oldest first), and a count of failures logged via `console.error`. -/
structure AvailabilityState where
  date : Option Nat
  hours : ℚ
  availableSlots : List TimeSlot
  isLoadingSlots : Bool
  pending : List (Nat × ℤ)
  errorsLogged : Nat

/-- An event of the fetch subsystem: either the effect dependencies
`(date, hours)` change (re-running the effect body), or the `i`-th
in-flight fetch resolves with a result or a failure. -/
inductive FetchEvent
  | change (date : Option Nat) (hours : ℚ)
  | resolve (i : Nat) (result : Except Unit (List TimeSlot))

/-- One step of the fetch subsystem, mirroring the effect body (source
lines 93-110).  On `change`: `setAvailableSlots([])`, then, when
`booking.date && booking.hours` is truthy, `setIsLoadingSlots(true)` and
a fetch is launched capturing `(date, Math.ceil(hours))`.  On `resolve`
of a pending fetch: success runs `setAvailableSlots(slots)` —
unconditionally, with no comparison of the captured parameters against
the current ones — failure only logs; both run the `finally` clause
`setIsLoadingSlots(false)`. -/
def stepFetch (s : AvailabilityState) (e : FetchEvent) : AvailabilityState :=
  match e with
  | .change d h =>
    let cleared : AvailabilityState :=
      { s with date := d, hours := h, availableSlots := [] }
    match d with
    | some dv =>
      if h = 0 then cleared
      else
        { cleared with
          isLoadingSlots := true
          pending := cleared.pending ++ [(dv, ⌈h⌉)] }
    | none => cleared
  | .resolve i result =>
    if i < s.pending.length then
      match result with
      | .ok slots =>
        { s with
          pending := s.pending.eraseIdx i
          isLoadingSlots := false
          availableSlots := slots }
      | .error _ =>
        { s with
          pending := s.pending.eraseIdx i
          isLoadingSlots := false
          errorsLogged := s.errorsLogged + 1 }
    else s

/-- Replay a sequence of fetch events. -/
def runFetch (s : AvailabilityState) (es : List FetchEvent) : AvailabilityState :=
  es.foldl stepFetch s

/-- Fetch-subsystem state at component mount: no date yet, hours 3 from
`INITIAL_STATE`, empty slot list, not loading, nothing in flight. -/
def mountAvailability : AvailabilityState :=
  { date := none
    hours := 3
    availableSlots := []
    isLoadingSlots := false
    pending := []
    errorsLogged := 0 }

/-- A concrete service catalog entry: the spec's standard home clean at
50 dollars per hour. -/
def standardHomeService : ServiceType :=
  { id := "home"
    title := "Standard Home Clean"
    hourlyRate := 50
    recommendedHours := 3 }

/-- A concrete catalog entry for the office category: its id is the
string `"office"` that line 83 of the source compares against. -/
def officeService : ServiceType :=
  { id := "office"
    title := "Office Clean"
    hourlyRate := 60
    recommendedHours := 3 }

/-- A booking with the office service selected. -/
def officeSelectedState : BookingState :=
  { INITIAL_STATE with service := some "office" }

/-- A concrete time slot used in the examples. -/
def sampleSlot : TimeSlot := ⟨9, 12, true⟩

/-- A booking with a date picked and a time slot already selected. -/
def selectedState : BookingState :=
  { INITIAL_STATE with date := some 1, timeSlot := some sampleSlot }

/-- Home counters with 33 bedrooms, about to be incremented once more. -/
def bigHome : HomeEstimator := ⟨33, 0, 0, 0⟩

/-- Slot list returned by the earlier-issued fetch A. -/
def slotsA : List TimeSlot := [⟨9, 10, true⟩]

/-- Slot list returned by the later-issued fetch B. -/
def slotsB : List TimeSlot := [⟨14, 15, true⟩]

/-- The race interleaving: fetch A is issued for (date 1, hours 3); the
parameters change to (date 2, hours 4), issuing fetch B; B resolves
first; then the stale A resolves. -/
def raceTrace : List FetchEvent :=
  [ .change (some 1) 3,
    .change (some 2) 4,
    .resolve 1 (.ok slotsB),
    .resolve 0 (.ok slotsA) ]

/-! ### Shared helper lemmas -/

/-- Evaluate `roundUpToHalf` at a concrete rational by bounding the
ceiling. -/
theorem roundUpToHalf_eq (q : ℚ) (k : ℤ) (h1 : (k : ℚ) - 1 < q * 2)
    (h2 : q * 2 ≤ k) : roundUpToHalf q = (k : ℚ) / 2 := by
  rw [roundUpToHalf, Int.ceil_eq_iff.mpr ⟨h1, h2⟩]

/-- A max of two half-integers is a half-integer. -/
theorem max_half (n k : ℤ) :
    max ((n : ℚ) / 2) ((k : ℚ) / 2) = ((max n k : ℤ) : ℚ) / 2 := by
  rcases le_total n k with h | h
  · rw [max_eq_right h, max_eq_right]
    exact div_le_div_of_nonneg_right (by exact_mod_cast h) (by norm_num)
  · rw [max_eq_left h, max_eq_left]
    exact div_le_div_of_nonneg_right (by exact_mod_cast h) (by norm_num)

/-- The booking state written by a home-counter mutation carries exactly
the spec's `homeHours` of the post-mutation counters. -/
theorem handleHomeChange_hours (c : HomeEstimator) (b : BookingState)
    (f : HomeField) (d : ℤ) :
    (handleHomeChange c b f d).2.hours = homeHours (handleHomeChange c b f d).1 := by
  rfl

/-- The booking state written by an office-counter mutation carries
exactly the spec's `officeHours` of the post-mutation counters. -/
theorem handleOfficeChange_hours (c : OfficeEstimator) (b : BookingState)
    (f : OfficeField) (d : ℤ) :
    (handleOfficeChange c b f d).2.hours = officeHours (handleOfficeChange c b f d).1 := by
  rfl

/-- `homeHours` at the default counters {2,1,1,1}: raw estimate 2.1,
rounded up to 2.5. -/
theorem homeHours_default : homeHours initialHomeEstimator = 5 / 2 := by
  have hraw : homeRaw initialHomeEstimator = 21 / 10 := by
    norm_num [homeRaw, initialHomeEstimator]
  rw [homeHours, hraw, roundUpToHalf_eq (21 / 10) 5 (by norm_num) (by norm_num)]
  rw [max_eq_right (by norm_num)]
  norm_num

/-- `officeHours` at the default counters {6,0,20,2}: raw estimate 6.05,
rounded up to 6.5. -/
theorem officeHours_default : officeHours initialOfficeEstimator = 13 / 2 := by
  have hraw : officeRaw initialOfficeEstimator = 121 / 20 := by
    norm_num [officeRaw, initialOfficeEstimator]
  rw [officeHours, hraw, roundUpToHalf_eq (121 / 20) 13 (by norm_num) (by norm_num)]
  rw [max_eq_right (by norm_num)]
  norm_num

/-- Max of 2 against a half-integer is a half-integer. -/
theorem max_two_half (k : ℤ) :
    max (2 : ℚ) ((k : ℚ) / 2) = ((max 4 k : ℤ) : ℚ) / 2 := by
  have h := max_half 4 k
  rw [show ((4 : ℤ) : ℚ) / 2 = 2 by norm_num] at h
  exact h

/-- Max of 3 against a half-integer is a half-integer. -/
theorem max_three_half (k : ℤ) :
    max (3 : ℚ) ((k : ℚ) / 2) = ((max 6 k : ℤ) : ℚ) / 2 := by
  have h := max_half 6 k
  rw [show ((6 : ℤ) : ℚ) / 2 = 3 by norm_num] at h
  exact h

/-- The spec's home estimate is always a multiple of one half. -/
theorem halfStep_homeHours (c : HomeEstimator) : halfStep (homeHours c) :=
  ⟨max 4 ⌈homeRaw c * 2⌉, by
    show max (2 : ℚ) ((⌈homeRaw c * 2⌉ : ℚ) / 2) = _
    rw [max_two_half]⟩

/-- The spec's office estimate is always a multiple of one half. -/
theorem halfStep_officeHours (c : OfficeEstimator) : halfStep (officeHours c) :=
  ⟨max 6 ⌈officeRaw c * 2⌉, by
    show max (3 : ℚ) ((⌈officeRaw c * 2⌉ : ℚ) / 2) = _
    rw [max_three_half]⟩

/-- Effect re-run on a truthy `(date, hours)` pair: clear the slot list,
set the loading flag, and launch a fetch capturing `(date, ceil hours)`. -/
theorem stepFetch_change_some (s : AvailabilityState) (d : Nat) (h : ℚ)
    (hh : h ≠ 0) :
    stepFetch s (.change (some d) h)
      = { s with
          date := some d
          hours := h
          availableSlots := []
          isLoadingSlots := true
          pending := s.pending ++ [(d, ⌈h⌉)] } := by
  cases s
  simp [stepFetch, hh]

/-- Resolving a pending fetch successfully writes its slots,
unconditionally. -/
theorem stepFetch_resolve_ok (s : AvailabilityState) (i : Nat)
    (slots : List TimeSlot) (hi : i < s.pending.length) :
    stepFetch s (.resolve i (.ok slots))
      = { s with
          pending := s.pending.eraseIdx i
          isLoadingSlots := false
          availableSlots := slots } := by
  cases s
  simp only [stepFetch]
  rw [if_pos hi]

/-- Resolving a pending fetch with a failure only logs and resets the
loading flag; the slot list is untouched. -/
theorem stepFetch_resolve_error (s : AvailabilityState) (i : Nat) (e : Unit)
    (hi : i < s.pending.length) :
    stepFetch s (.resolve i (.error e))
      = { s with
          pending := s.pending.eraseIdx i
          isLoadingSlots := false
          errorsLogged := s.errorsLogged + 1 } := by
  cases s
  simp only [stepFetch]
  rw [if_pos hi]

/-! ### Claim theorems -/

/-- Claim C1 is violated by the code: in the race trace, fetch A for
(date 1, hours 3) resolves after the later-issued fetch B for (date 2,
hours 4) has already resolved, yet the final slot list is fetch A's
`slotsA`, not `slotsB`, while the current parameters are still (date 2,
hours 4) — the effect has no stale-result guard, so the in-flight result
is written, not discarded. -/
theorem c1_stale_fetch_overwrites :
    (runFetch mountAvailability raceTrace).availableSlots = slotsA ∧
    (runFetch mountAvailability raceTrace).date = some 2 ∧
    (runFetch mountAvailability raceTrace).hours = 4 ∧
    slotsA ≠ slotsB := by
  have e1 : stepFetch mountAvailability (.change (some 1) 3)
      = { date := some 1, hours := 3, availableSlots := [],
          isLoadingSlots := true, pending := [(1, ⌈(3 : ℚ)⌉)],
          errorsLogged := 0 } := by
    rw [stepFetch_change_some _ _ _ (by norm_num : (3 : ℚ) ≠ 0)]
    rfl
  have e2 : stepFetch
      { date := some 1, hours := 3, availableSlots := ([] : List TimeSlot),
        isLoadingSlots := true, pending := [(1, ⌈(3 : ℚ)⌉)],
        errorsLogged := 0 } (.change (some 2) 4)
      = { date := some 2, hours := 4, availableSlots := [],
          isLoadingSlots := true,
          pending := [(1, ⌈(3 : ℚ)⌉), (2, ⌈(4 : ℚ)⌉)],
          errorsLogged := 0 } := by
    rw [stepFetch_change_some _ _ _ (by norm_num : (4 : ℚ) ≠ 0)]
    rfl
  have e3 : stepFetch
      { date := some 2, hours := 4, availableSlots := ([] : List TimeSlot),
        isLoadingSlots := true,
        pending := [(1, ⌈(3 : ℚ)⌉), (2, ⌈(4 : ℚ)⌉)], errorsLogged := 0 }
      (.resolve 1 (.ok slotsB))
      = { date := some 2, hours := 4, availableSlots := slotsB,
          isLoadingSlots := false, pending := [(1, ⌈(3 : ℚ)⌉)],
          errorsLogged := 0 } := by
    rw [stepFetch_resolve_ok _ _ _ (by simp)]
    rfl
  have e4 : stepFetch
      { date := some 2, hours := 4, availableSlots := slotsB,
        isLoadingSlots := false, pending := [(1, ⌈(3 : ℚ)⌉)],
        errorsLogged := 0 } (.resolve 0 (.ok slotsA))
      = { date := some 2, hours := 4, availableSlots := slotsA,
          isLoadingSlots := false, pending := [], errorsLogged := 0 } := by
    rw [stepFetch_resolve_ok _ _ _ (by simp)]
    rfl
  have hrun : runFetch mountAvailability raceTrace
      = stepFetch (stepFetch (stepFetch (stepFetch mountAvailability
          (.change (some 1) 3)) (.change (some 2) 4))
          (.resolve 1 (.ok slotsB))) (.resolve 0 (.ok slotsA)) := rfl
  rw [hrun, e1, e2, e3, e4]
  refine ⟨rfl, rfl, rfl, by simp [slotsA, slotsB]⟩

/-- Claim C9: `handleBack` decrements the step unconditionally; at step 1
it produces step 0, outside the declared range starting at 1. -/
theorem c9_back_unbounded :
    (∀ b : BookingState, (handleBack b).step = b.step - 1) ∧
    (handleBack INITIAL_STATE).step = 0 ∧
    ¬ (1 ≤ (handleBack INITIAL_STATE).step) := by
  refine ⟨fun b => rfl, rfl, by decide⟩

/-- Claim C10: at mount `booking.hours` is 3 even though the default home
counters {2,1,1,1} estimate 2.5 hours — the estimator result is written
only by a counter mutation, never at initialization. -/
theorem c10_initial_hours_three :
    INITIAL_STATE.hours = 3 ∧
    homeHours initialHomeEstimator = 5 / 2 ∧
    INITIAL_STATE.hours ≠ homeHours initialHomeEstimator := by
  have h0 : INITIAL_STATE.hours = 3 := rfl
  refine ⟨h0, homeHours_default, ?_⟩
  rw [h0, homeHours_default]
  norm_num

/-- Claim C6: a home-counter mutation writes `max(2, ceil(raw*2)/2)` of
the post-mutation counters into `booking.hours`, with `raw = kitchen*0.75
+ bathrooms*0.5 + bedrooms*0.3 + living*0.25`; the default counters
{2,1,1,1} give 2.5 hours, reached by incrementing bedrooms on {1,1,1,1}. -/
theorem c6_home_hours_formula :
    (∀ (c : HomeEstimator) (b : BookingState) (f : HomeField) (d : ℤ),
      (handleHomeChange c b f d).2.hours
        = homeHours (handleHomeChange c b f d).1) ∧
    homeHours initialHomeEstimator = 5 / 2 ∧
    (handleHomeChange ⟨1, 1, 1, 1⟩ INITIAL_STATE .bedrooms 1).2.hours = 5 / 2 := by
  refine ⟨handleHomeChange_hours, homeHours_default, ?_⟩
  have h1 : (handleHomeChange ⟨1, 1, 1, 1⟩ INITIAL_STATE .bedrooms 1).1
      = initialHomeEstimator := rfl
  rw [handleHomeChange_hours, h1, homeHours_default]

/-- Claim C7: an office-counter mutation writes `max(3, ceil(raw*2)/2)`
of the post-mutation counters into `booking.hours`, with `raw = rooms*0.3
+ cafeteria*0.67 + desks*0.133 + washrooms*0.42 + 0.75`; the counters
{6,0,20,2} give 6.5 hours, reached by incrementing rooms on {5,0,20,2}. -/
theorem c7_office_hours_formula :
    (∀ (c : OfficeEstimator) (b : BookingState) (f : OfficeField) (d : ℤ),
      (handleOfficeChange c b f d).2.hours
        = officeHours (handleOfficeChange c b f d).1) ∧
    officeHours initialOfficeEstimator = 13 / 2 ∧
    (handleOfficeChange ⟨5, 0, 20, 2⟩ INITIAL_STATE .rooms 1).2.hours = 13 / 2 := by
  refine ⟨handleOfficeChange_hours, officeHours_default, ?_⟩
  have h1 : (handleOfficeChange ⟨5, 0, 20, 2⟩ INITIAL_STATE .rooms 1).1
      = initialOfficeEstimator := rfl
  rw [handleOfficeChange_hours, h1, officeHours_default]

/-- Claim C4: the derived pricing figures satisfy the spec's formulas,
and with no service selected the catalog lookup yields no service and all
five figures are zero. -/
theorem c4_pricing_formulas (svc : Option ServiceType) (h : ℚ) :
    subtotal svc h = hourlyRate svc * h ∧
    hstAmount svc h = subtotal svc h * (13 / 100) ∧
    totalCost svc h = subtotal svc h + hstAmount svc h ∧
    depositAmount svc h = totalCost svc h * (30 / 100) ∧
    remainingAmount svc h = totalCost svc h * (70 / 100) ∧
    (svc = none →
      subtotal svc h = 0 ∧ hstAmount svc h = 0 ∧ totalCost svc h = 0 ∧
      depositAmount svc h = 0 ∧ remainingAmount svc h = 0) ∧
    (∀ (catalog : List ServiceType) (b : BookingState),
      b.service = none → currentService catalog b = none) := by
  refine ⟨?_, ?_, rfl, ?_, ?_, ?_, ?_⟩
  · cases svc with
    | some s => rfl
    | none => simp [subtotal, hourlyRate]
  · norm_num [hstAmount, HST_RATE]
  · norm_num [depositAmount]
  · norm_num [remainingAmount]
  · rintro rfl
    norm_num [subtotal, hstAmount, totalCost, depositAmount, remainingAmount,
      HST_RATE]
  · intro catalog b hb
    rw [currentService, List.find?_eq_none]
    intro s _
    simp [hb]

/-- Witness for C4 at no selected service and 3 hours. -/
theorem c4_witness :
    subtotal none 3 = 0 ∧ remainingAmount none 3 = 0 ∧
    currentService [standardHomeService] INITIAL_STATE = none := by
  have H := c4_pricing_formulas none 3
  exact ⟨(H.2.2.2.2.2.1 rfl).1, (H.2.2.2.2.2.1 rfl).2.2.2.2,
    H.2.2.2.2.2.2 [standardHomeService] INITIAL_STATE rfl⟩

/-- Claim C5: for nonnegative hours and rate, deposit plus remaining
equals the total exactly, and the total is subtotal times 1.13, in the
program's (exact rational) arithmetic. -/
theorem c5_deposit_plus_remaining (svc : Option ServiceType) (h : ℚ)
    (_hh : 0 ≤ h) (_hr : 0 ≤ hourlyRate svc) :
    depositAmount svc h + remainingAmount svc h = totalCost svc h ∧
    totalCost svc h = subtotal svc h * (113 / 100) := by
  have h13 : HST_RATE = 13 / 100 := by norm_num [HST_RATE]
  constructor
  · rw [depositAmount, remainingAmount, ← mul_add]
    norm_num
  · rw [totalCost, hstAmount, h13]
    ring

/-- Witness for C5 at the standard home service and 2.5 hours. -/
theorem c5_witness :
    depositAmount (some standardHomeService) (5 / 2)
        + remainingAmount (some standardHomeService) (5 / 2)
      = totalCost (some standardHomeService) (5 / 2) ∧
    totalCost (some standardHomeService) (5 / 2)
      = subtotal (some standardHomeService) (5 / 2) * (113 / 100) :=
  c5_deposit_plus_remaining (some standardHomeService) (5 / 2) (by norm_num)
    (by norm_num [hourlyRate, standardHomeService])

/-- Counterexample to claim C2 as stated, in both of its failing parts.
First, with no service selected (so not the office category) a
home-counter mutation on 33 bedrooms writes 10.5 hours into the booking,
outside the claimed range [2, 10].  Second, with the office service
selected (the catalog lookup yields the entry whose id is "office"), the
free-form slider — whose input element permits 2.5, a half-step inside
[2, 10] — writes 2.5 hours, below the claimed office minimum of 3. -/
theorem c2_counterexample :
    ((handleHomeChange bigHome INITIAL_STATE .bedrooms 1).2.service = none ∧
      (handleHomeChange bigHome INITIAL_STATE .bedrooms 1).2.hours = 21 / 2 ∧
      ¬ (handleHomeChange bigHome INITIAL_STATE .bedrooms 1).2.hours ≤ 10) ∧
    (currentService [officeService] officeSelectedState = some officeService ∧
      officeService.id = "office" ∧
      2 ≤ (5 / 2 : ℚ) ∧ (5 / 2 : ℚ) ≤ 10 ∧ halfStep (5 / 2 : ℚ) ∧
      (sliderSetHours officeSelectedState (5 / 2)).service = some "office" ∧
      (sliderSetHours officeSelectedState (5 / 2)).hours = 5 / 2 ∧
      ¬ (3 ≤ (sliderSetHours officeSelectedState (5 / 2)).hours)) := by
  have h1 : (handleHomeChange bigHome INITIAL_STATE .bedrooms 1).1
      = ⟨34, 0, 0, 0⟩ := rfl
  have hraw : homeRaw ⟨34, 0, 0, 0⟩ = 51 / 5 := by norm_num [homeRaw]
  have hh : (handleHomeChange bigHome INITIAL_STATE .bedrooms 1).2.hours
      = 21 / 2 := by
    rw [handleHomeChange_hours, h1, homeHours, hraw,
      roundUpToHalf_eq (51 / 5) 21 (by norm_num) (by norm_num),
      max_eq_right (by norm_num)]
    norm_num
  have hs : (sliderSetHours officeSelectedState (5 / 2)).hours = 5 / 2 := rfl
  refine ⟨⟨rfl, hh, ?_⟩,
    rfl, rfl, by norm_num, by norm_num, ⟨5, by norm_num⟩, rfl, hs, ?_⟩
  · rw [hh]
    norm_num
  · rw [hs]
    norm_num

/-- Claim C2, amended: after every writer `booking.hours` is a multiple
of 0.5 and at least 2; the office estimator writes at least 3 and the
slider stays within [2, 10]; but the home estimator enforces no upper
bound, and the slider does not enforce the office minimum of 3. -/
theorem c2_amended_hours_invariant :
    (INITIAL_STATE.hours = 3 ∧ 2 ≤ INITIAL_STATE.hours ∧
      halfStep INITIAL_STATE.hours) ∧
    (∀ (c : HomeEstimator) (b : BookingState) (f : HomeField) (d : ℤ),
      2 ≤ (handleHomeChange c b f d).2.hours ∧
      halfStep (handleHomeChange c b f d).2.hours) ∧
    (∀ (c : OfficeEstimator) (b : BookingState) (f : OfficeField) (d : ℤ),
      3 ≤ (handleOfficeChange c b f d).2.hours ∧
      halfStep (handleOfficeChange c b f d).2.hours) ∧
    (∀ (b : BookingState) (v : ℚ), 2 ≤ v → v ≤ 10 → halfStep v →
      2 ≤ (sliderSetHours b v).hours ∧ (sliderSetHours b v).hours ≤ 10 ∧
      halfStep (sliderSetHours b v).hours) := by
  refine ⟨⟨rfl, by norm_num [INITIAL_STATE], 6, by norm_num [INITIAL_STATE]⟩,
    ?_, ?_, ?_⟩
  · intro c b f d
    rw [handleHomeChange_hours]
    exact ⟨le_max_left 2 _, halfStep_homeHours _⟩
  · intro c b f d
    rw [handleOfficeChange_hours]
    exact ⟨le_max_left 3 _, halfStep_officeHours _⟩
  · intro b v h2 h10 hv
    exact ⟨h2, h10, hv⟩

/-- Witness for the amended C2 at a slider write of 2.5 hours. -/
theorem c2_witness :
    2 ≤ (sliderSetHours INITIAL_STATE (5 / 2)).hours ∧
    (sliderSetHours INITIAL_STATE (5 / 2)).hours ≤ 10 := by
  have H := c2_amended_hours_invariant.2.2.2 INITIAL_STATE (5 / 2)
    (by norm_num) (by norm_num) ⟨5, by norm_num⟩
  exact ⟨H.1, H.2.1⟩

/-- Claim C3 is violated by the code: with a time slot already selected,
moving the hours slider from 3 to 4 (and likewise mutating a home
counter) changes `booking.hours` but leaves the previously selected
`booking.timeSlot` in place instead of clearing it. -/
theorem c3_hours_change_keeps_timeslot :
    (sliderSetHours selectedState 4).hours ≠ selectedState.hours ∧
    selectedState.timeSlot = some sampleSlot ∧
    (sliderSetHours selectedState 4).timeSlot = some sampleSlot ∧
    (handleHomeChange initialHomeEstimator selectedState .bedrooms 1).2.timeSlot
      = some sampleSlot := by
  refine ⟨?_, rfl, rfl, rfl⟩
  have h1 : (sliderSetHours selectedState 4).hours = 4 := rfl
  have h2 : selectedState.hours = 3 := rfl
  rw [h1, h2]
  norm_num

/-- Claim C8: starting with no fetch in flight, a change to a set date
and nonzero hours launches a fetch carrying exactly `ceil(hours)` as the
duration and clears the slot list; if that fetch fails, the failure is
counted as logged, the slot list stays empty, the loading flag is reset
and the state remains well defined (nothing fatal); if it succeeds, the
slot list is replaced by the fetched slots. -/
theorem c8_fetch_error_handling (s : AvailabilityState) (d : Nat) (h : ℚ)
    (hp : s.pending = []) (hh : h ≠ 0) :
    (stepFetch s (.change (some d) h)).pending = [(d, ⌈h⌉)] ∧
    (stepFetch s (.change (some d) h)).availableSlots = [] ∧
    (stepFetch s (.change (some d) h)).isLoadingSlots = true ∧
    (∀ e : Unit,
      (stepFetch (stepFetch s (.change (some d) h))
          (.resolve 0 (.error e))).availableSlots = [] ∧
      (stepFetch (stepFetch s (.change (some d) h))
          (.resolve 0 (.error e))).isLoadingSlots = false ∧
      (stepFetch (stepFetch s (.change (some d) h))
          (.resolve 0 (.error e))).errorsLogged = s.errorsLogged + 1 ∧
      (stepFetch (stepFetch s (.change (some d) h))
          (.resolve 0 (.error e))).pending = []) ∧
    (∀ slots : List TimeSlot,
      (stepFetch (stepFetch s (.change (some d) h))
          (.resolve 0 (.ok slots))).availableSlots = slots ∧
      (stepFetch (stepFetch s (.change (some d) h))
          (.resolve 0 (.ok slots))).isLoadingSlots = false) := by
  have hc : stepFetch s (.change (some d) h)
      = { s with
          date := some d
          hours := h
          availableSlots := []
          isLoadingSlots := true
          pending := [(d, ⌈h⌉)] } := by
    rw [stepFetch_change_some s d h hh, hp]
    rfl
  refine ⟨by rw [hc], by rw [hc], by rw [hc], ?_, ?_⟩
  · intro e
    rw [hc, stepFetch_resolve_error _ _ _ (by simp)]
    exact ⟨rfl, rfl, rfl, rfl⟩
  · intro slots
    rw [hc, stepFetch_resolve_ok _ _ _ (by simp)]
    exact ⟨rfl, rfl⟩

/-- Witness for C8 from the mount state with date 1 and 3 hours. -/
theorem c8_witness :
    (stepFetch mountAvailability (.change (some 1) 3)).pending
      = [(1, ⌈(3 : ℚ)⌉)] ∧
    (stepFetch (stepFetch mountAvailability (.change (some 1) 3))
        (.resolve 0 (.error ()))).availableSlots = [] ∧
    (stepFetch (stepFetch mountAvailability (.change (some 1) 3))
        (.resolve 0 (.error ()))).errorsLogged = 1 := by
  have H := c8_fetch_error_handling mountAvailability 1 3 rfl (by norm_num)
  refine ⟨H.1, (H.2.2.2.1 ()).1, ?_⟩
  have h := (H.2.2.2.1 ()).2.2.1
  rw [h]
  rfl

end CleanrCrew
